import Mathlib

/-!
Shallow embedding of `src/three-phase-viscoelastic.h` (three-phase
viscoelastic material-property module for a VOF flow solver).

Machine doubles are modelled as exact rationals `ℚ`; the module's
arithmetic (products, clamps, fixed-weight stencil averages) is exact in
this model.  Scalar fields are functions from integer grid indices to `ℚ`.
-/

namespace ThreePhaseVE

/-- Basilisk's `clamp(x, a, b)`: `x` limited to the interval `[a, b]`. -/
def clamp (x a b : ℚ) : ℚ :=
  if x < a then a else if x > b then b else x

/-- The process-wide material constants of the module
(`rho1..rho3, mu1..mu3, G1..G3, lambda1..lambda3, TOLelastic`). -/
structure Config where
  rho1 : ℚ
  rho2 : ℚ
  rho3 : ℚ
  mu1 : ℚ
  mu2 : ℚ
  mu3 : ℚ
  G1 : ℚ
  G2 : ℚ
  G3 : ℚ
  lambda1 : ℚ
  lambda2 : ℚ
  lambda3 : ℚ
  TOLelastic : ℚ
deriving DecidableEq

/-- The default constants set at lines 24-27 of the source:
densities 1, viscosities 0, elastic moduli 0, relaxation times 0,
`TOLelastic = 1e-1`. -/
def defaultConfig : Config :=
  ⟨1, 1, 1, 0, 0, 0, 0, 0, 0, 0, 0, 0, 1/10⟩

/-- Phase-A fraction `f1*(1-f2)` as written in the `rho`/`mu` macros. -/
def phaseA (f1 f2 : ℚ) : ℚ := f1 * (1 - f2)

/-- Phase-B fraction `f1*f2` as written in the `rho`/`mu` macros. -/
def phaseB (f1 f2 : ℚ) : ℚ := f1 * f2

/-- Phase-C fraction `1-f1` as written in the `rho`/`mu` macros. -/
def phaseC (f1 : ℚ) : ℚ := 1 - f1

/-- The default density mixing macro (line 55 of the source):
`clamp(f1*(1-f2),0,1)*rho1 + clamp(f1*f2,0,1)*rho2 + clamp(1-f1,0,1)*rho3`. -/
def rho (c : Config) (f1 f2 : ℚ) : ℚ :=
  clamp (f1 * (1 - f2)) 0 1 * c.rho1 + clamp (f1 * f2) 0 1 * c.rho2 +
    clamp (1 - f1) 0 1 * c.rho3

/-- The default viscosity mixing macro (line 58 of the source). -/
def mu (c : Config) (f1 f2 : ℚ) : ℚ :=
  clamp (f1 * (1 - f2)) 0 1 * c.mu1 + clamp (f1 * f2) 0 1 * c.mu2 +
    clamp (1 - f1) 0 1 * c.mu3

/-- Density mixing law as the spec words it: a volume-fraction-weighted
arithmetic average over the three phases, each phase-fraction term clamped
to `[0,1]` independently before weighting.  (Stated from the spec, to be
compared against the source macro `rho`.) -/
def rhoSpecMix (c : Config) (f1 f2 : ℚ) : ℚ :=
  clamp (phaseA f1 f2) 0 1 * c.rho1 + clamp (phaseB f1 f2) 0 1 * c.rho2 +
    clamp (phaseC f1) 0 1 * c.rho3

/-- Viscosity mixing law as the spec words it (the same fraction-weighted
average over `(mu1, mu2, mu3)`). -/
def muSpecMix (c : Config) (f1 f2 : ℚ) : ℚ :=
  clamp (phaseA f1 f2) 0 1 * c.mu1 + clamp (phaseB f1 f2) 0 1 * c.mu2 +
    clamp (phaseC f1) 0 1 * c.mu3

/-- A 2-D scalar field: value of the scalar at grid cell `(x, y)`. -/
abbrev Field2 : Type := ℤ → ℤ → ℚ

/-- A 3-D scalar field. -/
abbrev Field3 : Type := ℤ → ℤ → ℤ → ℚ

/-- The per-cell body of the Phase Consistency Corrector
(lines 77-79 of the source): if `f2[] > 1e-2` and `f1[] < 1 - 1e-2`
then `f1[] = f2[]`, else `f1[]` is left alone. -/
def correct1 (f1 f2 : ℚ) : ℚ :=
  if f2 > 1/100 ∧ f1 < 1 - 1/100 then f2 else f1

/-- The Corrector's `foreach` pass lifted to whole 2-D fields. -/
def correctField (f1 f2 : Field2) : Field2 :=
  fun x y => correct1 (f1 x y) (f2 x y)

/-- The 2-D smoothing stencil of the `FILTERED` branch (lines 96-100):
center weight 4, the four face neighbors weight 2, the four corner
neighbors weight 1, divided by 16. -/
def smooth2D (f : Field2) (x y : ℤ) : ℚ :=
  (4 * f x y +
    2 * (f x (y+1) + f x (y-1) + f (x+1) y + f (x-1) y) +
    f (x-1) (y-1) + f (x+1) (y-1) + f (x+1) (y+1) + f (x-1) (y+1)) / 16

/-- The 3-D smoothing stencil of the `FILTERED` branch (lines 102-110):
center weight 8, the six face neighbors weight 4, the twelve edge
neighbors weight 2, the eight corner neighbors weight 1, divided by 64. -/
def smooth3D (f : Field3) (x y z : ℤ) : ℚ :=
  (8 * f x y z +
    4 * (f (x-1) y z + f (x+1) y z + f x (y+1) z + f x (y-1) z +
          f x y (z+1) + f x y (z-1)) +
    2 * (f (x-1) (y+1) z + f (x-1) y (z+1) + f (x-1) y (z-1) +
          f (x-1) (y-1) z + f x (y+1) (z+1) + f x (y+1) (z-1) +
          f x (y-1) (z+1) + f x (y-1) (z-1) + f (x+1) (y+1) z +
          f (x+1) y (z+1) + f (x+1) (y-1) z + f (x+1) y (z-1)) +
    f (x+1) (y-1) (z+1) + f (x-1) (y+1) (z+1) + f (x-1) (y+1) (z-1) +
    f (x+1) (y+1) (z+1) + f (x+1) (y+1) (z-1) + f (x-1) (y-1) (z-1) +
    f (x+1) (y-1) (z-1) + f (x-1) (y-1) (z+1)) / 64

/-- The fields produced by one run of the `tracer_advection` event
(2-D, `FILTERED`): the (possibly corrected) raw fraction fields and the
smoothed fields `sf1`, `sf2`. -/
structure AdvOut where
  f1 : Field2
  f2 : Field2
  sf1 : Field2
  sf2 : Field2

/-- The `tracer_advection` event (lines 73-123, 2-D `FILTERED` branch) at
step index `i`.  The Phase Consistency Corrector runs only when `i > 1`
(the brace at line 81 closes the `if (i > 1)` block opened at line 75);
the smoothing stencil at lines 86-115 sits outside that guard and is
applied at every step, to the post-correction `f1` and to `f2`. -/
def tracer_advection (i : ℕ) (f1 f2 : Field2) : AdvOut :=
  let f1c : Field2 := if i > 1 then correctField f1 f2 else f1
  ⟨f1c, f2, fun x y => smooth2D f1c x y, fun x y => smooth2D f2 x y⟩

/-- One threshold-gated accumulation step of the `properties` event
(e.g. lines 142-145): the phase contributes `coef * frac` when its
clamped fraction `frac` strictly exceeds the tolerance, otherwise 0. -/
def elasticContrib (coef frac tol : ℚ) : ℚ :=
  if frac > tol then coef * frac else 0

/-- The per-cell elastic-modulus field `Gpd[]` computed by the
`properties` event (lines 139-153): starts at 0 and accumulates the
threshold-gated contributions of the three phases. -/
def Gpd (c : Config) (s1 s2 : ℚ) : ℚ :=
  elasticContrib c.G1 (clamp (s1 * (1 - s2)) 0 1) c.TOLelastic +
    elasticContrib c.G2 (clamp (s1 * s2) 0 1) c.TOLelastic +
    elasticContrib c.G3 (clamp (1 - s1) 0 1) c.TOLelastic

/-- The per-cell relaxation-time field `lambdapd[]` computed by the
`properties` event (lines 139-153). -/
def lambdapd (c : Config) (s1 s2 : ℚ) : ℚ :=
  elasticContrib c.lambda1 (clamp (s1 * (1 - s2)) 0 1) c.TOLelastic +
    elasticContrib c.lambda2 (clamp (s1 * s2) 0 1) c.TOLelastic +
    elasticContrib c.lambda3 (clamp (1 - s1) 0 1) c.TOLelastic

/-- Helper: the unit clamp always lands in `[0,1]`. -/
theorem clamp01_mem (x : ℚ) : 0 ≤ clamp x 0 1 ∧ clamp x 0 1 ≤ 1 := by
  unfold clamp
  split_ifs with h1 h2 <;> constructor <;> linarith

/-- Helper: the per-cell corrector is idempotent. -/
theorem correct1_idem (a b : ℚ) : correct1 (correct1 a b) b = correct1 a b := by
  unfold correct1
  by_cases h : b > 1/100 ∧ a < 1 - 1/100
  · simp only [if_pos h, ite_self]
  · simp only [if_neg h]

/-- C1: from the second simulation step onward (step index `i > 1`), in
every cell where `f2` exceeds `1e-2` and `f1` is below `1 - 1e-2`, the
Phase Consistency Corrector overwrites `f1` with `f2`'s value, so
post-correction `f1` equals `f2` in that cell. -/
theorem C1_corrector_overwrites (i : ℕ) (f1 f2 : Field2) (x y : ℤ)
    (hi : i > 1) (h2 : f2 x y > 1/100) (h1 : f1 x y < 1 - 1/100) :
    (tracer_advection i f1 f2).f1 x y = f2 x y := by
  show (if i > 1 then correctField f1 f2 else f1) x y = f2 x y
  rw [if_pos hi]
  show (if f2 x y > 1/100 ∧ f1 x y < 1 - 1/100 then f2 x y else f1 x y) = f2 x y
  exact if_pos ⟨h2, h1⟩

theorem C1_corrector_overwrites_witness :
    (1:ℚ)/2 > 1/100 ∧ (0:ℚ) < 1 - 1/100 ∧
      (tracer_advection 2 (fun _ _ => 0) (fun _ _ => 1/2)).f1 0 0 = 1/2 :=
  ⟨by norm_num, by norm_num,
    C1_corrector_overwrites 2 (fun _ _ => 0) (fun _ _ => 1/2) 0 0
      (by norm_num) (by norm_num) (by norm_num)⟩

/-- C2: the default density mixing law equals
`clamp(f1*(1-f2),0,1)*rho1 + clamp(f1*f2,0,1)*rho2 + clamp(1-f1,0,1)*rho3`
— the fraction-weighted arithmetic average over the three phases with each
phase-fraction term clamped to `[0,1]` independently — and the default
viscosity mixing law is the same average over `(mu1, mu2, mu3)`. -/
theorem C2_default_mixing_laws (c : Config) (a b : ℚ) :
    rho c a b = rhoSpecMix c a b ∧ mu c a b = muSpecMix c a b :=
  ⟨rfl, rfl⟩

/-- C3 counterexample: the claim that the smoothing stencil is applied only
when the step index exceeds 1 is false.  At step index 0, for the raw field
that is 1 at the origin and 0 elsewhere, the smoothed field at the origin
is `1/4` (the stencil was applied), not the raw value 1: the smoothing
block of `tracer_advection` sits outside the `if (i > 1)` guard. -/
theorem C3_counterexample :
    (tracer_advection 0 (fun x y => if x = 0 ∧ y = 0 then 1 else 0)
        (fun _ _ => 0)).sf1 0 0 = 1/4 ∧
      (fun x y : ℤ => if x = 0 ∧ y = 0 then (1:ℚ) else 0) 0 0 = 1 := by
  constructor
  · show smooth2D (if (0:ℕ) > 1 then _ else
        fun x y => if x = 0 ∧ y = 0 then (1:ℚ) else 0) 0 0 = 1/4
    norm_num [smooth2D]
  · norm_num

/-- C3 amended: only the Phase Consistency Corrector is gated on step index
`> 1`; the Interface Smoothing Filter runs at every step.  At steps with
index `≤ 1` the correction is not applied (`f1` passes through unchanged),
while the smoothing stencil is still applied, to the raw fields. -/
theorem C3_gating_amended (i : ℕ) (f1 f2 : Field2) (x y : ℤ) (hi : i ≤ 1) :
    (tracer_advection i f1 f2).f1 x y = f1 x y ∧
      (tracer_advection i f1 f2).sf1 x y = smooth2D f1 x y ∧
      (tracer_advection i f1 f2).sf2 x y = smooth2D f2 x y := by
  have h : ¬ (i > 1) := by omega
  refine ⟨?_, ?_, rfl⟩
  · show (if i > 1 then correctField f1 f2 else f1) x y = f1 x y
    rw [if_neg h]
  · show smooth2D (if i > 1 then correctField f1 f2 else f1) x y =
      smooth2D f1 x y
    rw [if_neg h]

theorem C3_gating_amended_witness :
    (0:ℕ) ≤ 1 ∧
      ((tracer_advection 0 (fun _ _ => (1:ℚ)) (fun _ _ => 0)).f1 0 0 =
          (fun _ _ : ℤ => (1:ℚ)) 0 0 ∧
        (tracer_advection 0 (fun _ _ => (1:ℚ)) (fun _ _ => 0)).sf1 0 0 =
          smooth2D (fun _ _ => (1:ℚ)) 0 0 ∧
        (tracer_advection 0 (fun _ _ => (1:ℚ)) (fun _ _ => 0)).sf2 0 0 =
          smooth2D (fun _ _ => (0:ℚ)) 0 0) :=
  ⟨by decide, C3_gating_amended 0 (fun _ _ => 1) (fun _ _ => 0) 0 0 (by decide)⟩

/-- C4: threshold gating in the `properties` cell pass is strict.  A phase
whose clamped fraction is exactly `TOLelastic` contributes nothing to the
accumulated elastic-modulus / relaxation-time value, while a fraction of
`TOLelastic + ε` (any `ε > 0`) contributes the phase constant times that
fraction. -/
theorem C4_strict_threshold (coef tol ε : ℚ) (hε : 0 < ε) :
    elasticContrib coef tol tol = 0 ∧
      elasticContrib coef (tol + ε) tol = coef * (tol + ε) := by
  constructor
  · unfold elasticContrib
    rw [if_neg (lt_irrefl tol)]
  · unfold elasticContrib
    rw [if_pos (by linarith : tol + ε > tol)]

theorem C4_strict_threshold_witness :
    (0:ℚ) < 1/10 ∧
      (elasticContrib 2 (1/10) (1/10) = 0 ∧
        elasticContrib 2 (1/10 + 1/10) (1/10) = 2 * (1/10 + 1/10)) :=
  ⟨by norm_num, C4_strict_threshold 2 (1/10) (1/10) (by norm_num)⟩

/-- C5: smoothing-filter weight conservation.  Applying either the 2-D
stencil (weights 4/2/1, divisor 16) or the 3-D stencil (weights 8/4/2/1,
divisor 64) to a spatially constant field of value `v` yields `v` at every
cell. -/
theorem C5_stencil_conserves_const (v : ℚ) (x y z : ℤ) :
    smooth2D (fun _ _ => v) x y = v ∧ smooth3D (fun _ _ _ => v) x y z = v := by
  constructor
  · unfold smooth2D; ring
  · unfold smooth3D; ring

/-- C6: every clamped phase-fraction term used in the mixing laws and in
the elastic gating lies in `[0,1]`, for all input fractions, including
out-of-range ones such as `f1 = 1.3`, `f2 = -0.2`. -/
theorem C6_clamped_terms_in_unit_interval (f1 f2 : ℚ) :
    (0 ≤ clamp (phaseA f1 f2) 0 1 ∧ clamp (phaseA f1 f2) 0 1 ≤ 1) ∧
      (0 ≤ clamp (phaseB f1 f2) 0 1 ∧ clamp (phaseB f1 f2) 0 1 ≤ 1) ∧
      (0 ≤ clamp (phaseC f1) 0 1 ∧ clamp (phaseC f1) 0 1 ≤ 1) :=
  ⟨clamp01_mem _, clamp01_mem _, clamp01_mem _⟩

/-- C7: for in-range fractions `f1, f2 ∈ [0,1]` the three unclamped phase
fractions `f1*(1-f2)`, `f1*f2`, `1-f1` sum to exactly 1. -/
theorem C7_phase_fractions_sum_to_one (f1 f2 : ℚ)
    (h1 : 0 ≤ f1) (h2 : f1 ≤ 1) (h3 : 0 ≤ f2) (h4 : f2 ≤ 1) :
    phaseA f1 f2 + phaseB f1 f2 + phaseC f1 = 1 := by
  unfold phaseA phaseB phaseC
  ring

theorem C7_phase_fractions_sum_to_one_witness :
    (0:ℚ) ≤ 1/2 ∧ (1:ℚ)/2 ≤ 1 ∧ (0:ℚ) ≤ 1/3 ∧ (1:ℚ)/3 ≤ 1 ∧
      phaseA (1/2) (1/3) + phaseB (1/2) (1/3) + phaseC (1/2) = 1 :=
  ⟨by norm_num, by norm_num, by norm_num, by norm_num,
    C7_phase_fractions_sum_to_one (1/2) (1/3)
      (by norm_num) (by norm_num) (by norm_num) (by norm_num)⟩

/-- C8: end-to-end scenario 3 with `sf1 = 1/20`, `sf2 = 0` and
`TOLelastic = 1/10`.  The phase-A clamped fraction `1/20` does not clear
the threshold, the phase-C clamped fraction `19/20` does, so only the
phase-C constants contribute: `Gpd = G3 * 19/20` and
`lambdapd = lambda3 * 19/20` — per-phase gating, not all-or-nothing.
With the source's default constants (`G3 = lambda3 = 0`) both fields are
exactly 0. -/
theorem C8_scenario3_per_phase_gating (c : Config)
    (htol : c.TOLelastic = 1/10) :
    ¬ (clamp ((1/20) * (1 - 0)) 0 1 > c.TOLelastic) ∧
      clamp (1 - 1/20) 0 1 > c.TOLelastic ∧
      Gpd c (1/20) 0 = c.G3 * (19/20) ∧
      lambdapd c (1/20) 0 = c.lambda3 * (19/20) ∧
      Gpd defaultConfig (1/20) 0 = 0 ∧
      lambdapd defaultConfig (1/20) 0 = 0 := by
  rw [htol]
  refine ⟨by norm_num [clamp], by norm_num [clamp], ?_, ?_, ?_, ?_⟩ <;>
    norm_num [Gpd, lambdapd, elasticContrib, clamp, defaultConfig, htol]

theorem C8_scenario3_witness :
    defaultConfig.TOLelastic = 1/10 ∧
      Gpd defaultConfig (1/20) 0 = defaultConfig.G3 * (19/20) :=
  ⟨rfl, (C8_scenario3_per_phase_gating defaultConfig rfl).2.2.1⟩

/-- C9: corrector frame condition.  The correction pass leaves `f2`
unchanged in every cell unconditionally (the pass never writes `f2`), and
leaves `f1` unchanged in every cell where the condition
`f2 > 1e-2 ∧ f1 < 1 - 1e-2` does not hold, at any step index. -/
theorem C9_corrector_frame (i : ℕ) (f1 f2 : Field2) (x y : ℤ) :
    (tracer_advection i f1 f2).f2 x y = f2 x y ∧
      (¬ (f2 x y > 1/100 ∧ f1 x y < 1 - 1/100) →
        (tracer_advection i f1 f2).f1 x y = f1 x y) := by
  refine ⟨rfl, fun h => ?_⟩
  show (if i > 1 then correctField f1 f2 else f1) x y = f1 x y
  by_cases hi : i > 1
  · rw [if_pos hi]
    show (if f2 x y > 1/100 ∧ f1 x y < 1 - 1/100 then f2 x y else f1 x y) =
      f1 x y
    exact if_neg h
  · rw [if_neg hi]

theorem C9_corrector_frame_witness :
    (tracer_advection 2 (fun _ _ => (1:ℚ)) (fun _ _ => 1)).f2 0 0 =
        (fun _ _ : ℤ => (1:ℚ)) 0 0 ∧
      ¬ ((fun _ _ : ℤ => (1:ℚ)) 0 0 > 1/100 ∧
          (fun _ _ : ℤ => (1:ℚ)) 0 0 < 1 - 1/100) ∧
      (tracer_advection 2 (fun _ _ => (1:ℚ)) (fun _ _ => 1)).f1 0 0 =
        (fun _ _ : ℤ => (1:ℚ)) 0 0 :=
  ⟨(C9_corrector_frame 2 (fun _ _ => 1) (fun _ _ => 1) 0 0).1,
    by norm_num,
    (C9_corrector_frame 2 (fun _ _ => 1) (fun _ _ => 1) 0 0).2 (by norm_num)⟩

/-- C10: the correction pass is idempotent.  Applying the per-cell rule
(if `f2 > 1e-2` and `f1 < 1 - 1e-2` then `f1 := f2`) twice over the fields
yields the same `f1` field as applying it once. -/
theorem C10_corrector_idempotent (f1 f2 : Field2) :
    correctField (correctField f1 f2) f2 = correctField f1 f2 := by
  funext x y
  exact correct1_idem (f1 x y) (f2 x y)

end ThreePhaseVE
